import Mathlib

/-!
Shallow embedding of the updater operation layer of
`android_bootable_recovery` (`src/updater/install.cpp`), together with
theorems settling the frozen claims about it.

Conventions of the embedding:
* An edify value is a string, a blob, or the invalid value (`Val`).
* A handler returning `Value*` is modelled by `OpResult`: a returned
  value (`ok`), the bare `nullptr` return (`null`), or an `ErrorAbort`
  with its error kind (`abort`).
* System calls and collaborator calls (chmod, mount, FindEntry, the
  external mkfs tools, ...) are modelled by explicit outcome records
  passed to each operation; the operation's own control flow is
  translated from the source line by line.
-/

namespace Updater

/-- An evaluated edify value (`Value` in `edify/expr.h`): a plain
string, a binary blob, or the invalid value. -/
inductive Val where
  | str : String → Val
  | blob : String → Val
  | invalid : Val
deriving DecidableEq, Repr

/-- The error kinds of `otautil/error_code.h` used by the operations
modelled here. -/
inductive ErrorKind where
  | kArgsParsingFailure : ErrorKind
  | kPackageExtractFileFailure : ErrorKind
  | kSetMetadataFailure : ErrorKind
  | kRebootFailure : ErrorKind
  | kFileRenameFailure : ErrorKind
  | kSymlinkFailure : ErrorKind
  | kFileGetPropFailure : ErrorKind
  | kFileOpenFailure : ErrorKind
  | kFreadFailure : ErrorKind
  | kTune2FsFailure : ErrorKind
deriving DecidableEq, Repr

/-- Result of one operation handler: a returned value, a bare
`nullptr` return, or an `ErrorAbort` carrying a named error kind. -/
inductive OpResult where
  | ok : Val → OpResult
  | null : OpResult
  | abort : ErrorKind → OpResult
deriving DecidableEq, Repr

/-! ## Metadata and permission application (`set_metadata`,
`set_metadata_recursive`) -/

/-- What `lstat` reports a tree entry to be, as tested by `S_ISLNK`,
`S_ISDIR`, `S_ISREG` in `ApplyParsedPerms`. -/
inductive FileKind where
  | lnk : FileKind
  | dir : FileKind
  | reg : FileKind
  | other : FileKind
deriving DecidableEq, Repr

/-- The sparse parsed permission spec `perm_parsed_args`: each
attribute with its present flag. -/
structure PermParsedArgs where
  has_uid : Bool := false
  uid : Int := 0
  has_gid : Bool := false
  gid : Int := 0
  has_mode : Bool := false
  mode : Int := 0
  has_dmode : Bool := false
  dmode : Int := 0
  has_fmode : Bool := false
  fmode : Int := 0
  has_selabel : Bool := false
  selabel : String := ""
  has_capabilities : Bool := false
  capabilities : Nat := 0
deriving DecidableEq, Repr

/-- Outcomes of the per-entry system calls attempted by
`ApplyParsedPerms` on one tree entry: the entry's stat kind plus
whether each attribute-setting call would succeed.
`removexattrOk` is true when `removexattr` succeeds or fails with
`ENODATA` (tolerated by the source). -/
structure FileEnv where
  kind : FileKind
  lsetfileconOk : Bool := true
  chownUidOk : Bool := true
  chownGidOk : Bool := true
  chmodModeOk : Bool := true
  chmodDmodeOk : Bool := true
  chmodFmodeOk : Bool := true
  removexattrOk : Bool := true
  setxattrOk : Bool := true
deriving DecidableEq, Repr

/-- `ApplyParsedPerms` (install.cpp:915-997): applies each present
attribute to one entry, counting failures in `bad`; the security
label is applied even to symlinks, and for a symlink nothing further
is touched; dmode applies only to directories, fmode and
capabilities only to regular files; capabilities `0` removes the
capability attribute (tolerating its absence), nonzero sets it. -/
def ApplyParsedPerms (p : PermParsedArgs) (e : FileEnv) : Nat :=
  let bad0 : Nat := if p.has_selabel ∧ ¬ e.lsetfileconOk then 1 else 0
  if e.kind = FileKind.lnk then bad0
  else
    bad0
    + (if p.has_uid ∧ ¬ e.chownUidOk then 1 else 0)
    + (if p.has_gid ∧ ¬ e.chownGidOk then 1 else 0)
    + (if p.has_mode ∧ ¬ e.chmodModeOk then 1 else 0)
    + (if p.has_dmode ∧ e.kind = FileKind.dir ∧ ¬ e.chmodDmodeOk then 1 else 0)
    + (if p.has_fmode ∧ e.kind = FileKind.reg ∧ ¬ e.chmodFmodeOk then 1 else 0)
    + (if p.has_capabilities ∧ e.kind = FileKind.reg then
        (if p.capabilities = 0 then (if ¬ e.removexattrOk then 1 else 0)
         else (if ¬ e.setxattrOk then 1 else 0))
       else 0)

/-- The `nftw` walk underlying `set_metadata_recursive`
(install.cpp:1033): `do_SetMetadataRecursive` returns
`ApplyParsedPerms`'s failure count for each visited entry, and POSIX
`nftw` terminates the walk at the first callback invocation that
returns a nonzero value, returning that value; `es` is the tree's
entries in walk order. -/
def nftwWalk (p : PermParsedArgs) : List FileEnv → Nat
  | [] => 0
  | e :: rest =>
      let r := ApplyParsedPerms p e
      if r ≠ 0 then r else nftwWalk p rest

/-- The entries actually visited (hence attempted) by the `nftw`
walk before it returns: every entry up to and including the first one
whose callback returns nonzero. -/
def nftwVisited (p : PermParsedArgs) : List FileEnv → List FileEnv
  | [] => []
  | e :: rest =>
      let r := ApplyParsedPerms p e
      if r ≠ 0 then [e] else e :: nftwVisited p rest

/-- `SetMetadataFn` in its recursive form (install.cpp:1030-1044),
after argument parsing and a successful `lstat`: run the `nftw` walk,
abort with `kSetMetadataFailure` when the accumulated `bad` is
positive, otherwise return the empty string. -/
def SetMetadataRecursive (p : PermParsedArgs) (tree : List FileEnv) : OpResult :=
  let bad := nftwWalk p tree
  if bad > 0 then OpResult.abort ErrorKind.kSetMetadataFailure
  else OpResult.ok (Val.str "")

/-- `SetMetadataFn` in its non-recursive form (install.cpp:1037-1044):
apply the parsed perms to the single target, abort with
`kSetMetadataFailure` when `bad` is positive, otherwise return the
empty string. -/
def SetMetadataSingle (p : PermParsedArgs) (e : FileEnv) : OpResult :=
  let bad := ApplyParsedPerms p e
  if bad > 0 then OpResult.abort ErrorKind.kSetMetadataFailure
  else OpResult.ok (Val.str "")

/-- The first nonzero per-entry failure count in walk order, or 0
when every entry applies cleanly. -/
def firstBad (p : PermParsedArgs) (es : List FileEnv) : Nat :=
  ((es.map (ApplyParsedPerms p)).dropWhile (fun n => n == 0)).headD 0

/-! ## Staged reboot protocol (`reboot_now`, `set_stage`, `get_stage`) -/

/-- Modelled from the spec: the boot-control record
(`bootloader_message`, declared in the repository's
`bootloader_message/` library, not under `src/`) — a fixed-layout
record with a pending command field, a status field, a recovery
field, a bounded stage field, and reserved space. Each character
array field is modelled by its C-string content (the characters
before the terminating NUL). -/
structure BootloaderMessage where
  command : List Char
  status : List Char
  recovery : List Char
  stage : List Char
  reserved : List Char
deriving DecidableEq, Repr

/-- Modelled from the spec: the stage field holds at most 31 bytes of
content (`char stage[32]` with a terminating NUL; install.cpp:1309
says the stage string should not exceed 31 bytes). -/
def stageCapacity : Nat := 31

/-- `strlcpy(boot.stage, stagestr.c_str(), sizeof(boot.stage))`
(install.cpp:1333): copies at most `stageCapacity` characters of the
token and NUL-terminates, so the stored C-string content is the
token truncated to `stageCapacity`. -/
def strlcpyStage (tok : List Char) : List Char :=
  tok.take stageCapacity

/-- The record `SetStageFn` writes back (install.cpp:1327-1334): the
record it read, with only the stage field overwritten. -/
def setStageWritten (b : BootloaderMessage) (tok : List Char) : BootloaderMessage :=
  { b with stage := strlcpyStage tok }

/-- The record `RebootNowFn` writes back (install.cpp:1278-1285): the
record it read, with only the command field zeroed
(`memset(boot.command, 0, sizeof(boot.command))`); as a C string the
zeroed field is empty. -/
def rebootWritten (b : BootloaderMessage) : BootloaderMessage :=
  { b with command := [] }

/-- Outcomes of the boot-control I/O collaborator calls made by
`set_stage`, `get_stage` and `reboot_now`, plus the on-record state:
whether `read_bootloader_message_from` and
`write_bootloader_message_to` succeed, the record currently stored,
whether `ro.boot.quiescent` is set, and whether the reboot request
issued through the reboot property actually takes the process down. -/
structure BootEnv where
  readOk : Bool := true
  writeOk : Bool := true
  record : BootloaderMessage
  quiescent : Bool := false
  rebootTakesEffect : Bool := true
deriving DecidableEq, Repr

/-- A `reboot_now` invocation either takes the device down (control
never returns to the script) or returns a result to the caller. -/
inductive RebootOutcome where
  | rebooted : RebootOutcome
  | returned : OpResult → RebootOutcome
deriving DecidableEq, Repr

/-- The reboot command string built at install.cpp:1290-1293. -/
def rebootCmd (property : String) (quiescent : Bool) : String :=
  "reboot," ++ property ++ (if quiescent then ",quiescent" else "")

/-- `RebootNowFn` (install.cpp:1264-1298) after argument parsing:
failure to read the boot-control record returns the empty string;
then the command field is zeroed and the whole record written back,
failure again returning the empty string; then the reboot property is
set, and if control ever returns the call aborts with
`kRebootFailure` after the grace delay. Returns the outcome together
with the record stored on disk afterwards. -/
def RebootNowFn (env : BootEnv) : RebootOutcome × BootloaderMessage :=
  if ¬ env.readOk then (RebootOutcome.returned (OpResult.ok (Val.str "")), env.record)
  else
    let written := rebootWritten env.record
    if ¬ env.writeOk then (RebootOutcome.returned (OpResult.ok (Val.str "")), env.record)
    else if env.rebootTakesEffect then (RebootOutcome.rebooted, written)
    else (RebootOutcome.returned (OpResult.abort ErrorKind.kRebootFailure), written)

/-- `SetStageFn` (install.cpp:1310-1340) after argument parsing:
failure to read the record returns the empty string; otherwise the
stage field alone is overwritten with the (truncated) token and the
record written back, returning the record path on success and the
empty string on write failure. Returns the result together with the
record stored on disk afterwards. -/
def SetStageFn (filename : String) (tok : List Char) (env : BootEnv) :
    OpResult × BootloaderMessage :=
  if ¬ env.readOk then (OpResult.ok (Val.str ""), env.record)
  else
    let written := setStageWritten env.record tok
    if ¬ env.writeOk then (OpResult.ok (Val.str ""), env.record)
    else (OpResult.ok (Val.str filename), written)

/-- `GetStageFn` (install.cpp:1344-1363) after argument parsing:
failure to read the record returns the empty string, otherwise the
stage field is returned verbatim as a string. -/
def GetStageFn (env : BootEnv) : OpResult :=
  if ¬ env.readOk then OpResult.ok (Val.str "")
  else OpResult.ok (Val.str (String.mk env.record.stage))

/-! ## Filesystem provisioning (`mount`, `unmount`, `format`) -/

/-- Exit statuses of the external tool invocations `format` makes
through `exec_cmd` (install.cpp:496-509); zero means success. -/
structure ExecEnv where
  mke2fsStatus : Nat := 0
  e2fsdroidStatus : Nat := 0
  mkfsF2fsStatus : Nat := 0
  sloadStatus : Nat := 0
deriving DecidableEq, Repr

/-- The `mke2fs_static` argument vector built at install.cpp:556-562:
the block-count argument `size / 4096` (C truncating division, `Int.tdiv`) is
appended only when `size != 0`. -/
def mke2fsArgv (location : String) (size : Int) : List String :=
  ["/sbin/mke2fs_static", "-t", "ext4", "-b", "4096", location]
    ++ (if size ≠ 0 then [toString (Int.tdiv size 4096)] else [])

/-- The `e2fsdroid_static` argument vector (install.cpp:570-571). -/
def e2fsdroidArgv (mount_point location : String) : List String :=
  ["/sbin/e2fsdroid_static", "-e", "-a", mount_point, location]

/-- The `mkfs.f2fs` argument vector built at install.cpp:583-595: the
sector-count argument `size / 512` is appended only when
`size >= 512` (`(size < 512) ? nullptr : num_sectors.c_str()`). -/
def mkfsF2fsArgv (location : String) (size : Int) : List String :=
  ["mkfs.f2fs", "-d1", "-f", "-O", "encrypt", "-O", "quota", "-O", "verity",
   "-w", "512", location]
    ++ (if size < 512 then [] else [toString (Int.tdiv size 512)])

/-- The `sload.f2fs` argument vector (install.cpp:602-603). -/
def sloadArgv (mount_point location : String) : List String :=
  ["/sbin/sload.f2fs", "-t", mount_point, location]

/-- `FormatFn` (install.cpp:518-617) at the evaluated-argument level,
with `parsedSize` the outcome of the `android::base::ParseInt` library
call on `fs_size`: empty required arguments or an unparseable size
abort with `kArgsParsingFailure`; the ext4 branch runs
`mke2fs_static` then `e2fsdroid_static`, the f2fs branch rejects a
negative size with an empty result and otherwise runs `mkfs.f2fs`
then `sload.f2fs`; a nonzero tool status yields an empty result;
success returns the device location; any other fs_type logs
"unsupported" and returns `nullptr`. The second component lists the
external invocations actually made, in order. -/
def FormatFn (fs_type partition_type location fs_size mount_point : String)
    (parsedSize : Option Int) (env : ExecEnv) : OpResult × List (List String) :=
  if fs_type = "" then (OpResult.abort ErrorKind.kArgsParsingFailure, [])
  else if partition_type = "" then (OpResult.abort ErrorKind.kArgsParsingFailure, [])
  else if location = "" then (OpResult.abort ErrorKind.kArgsParsingFailure, [])
  else if mount_point = "" then (OpResult.abort ErrorKind.kArgsParsingFailure, [])
  else
    match parsedSize with
    | none => (OpResult.abort ErrorKind.kArgsParsingFailure, [])
    | some size =>
      if fs_type = "ext4" then
        let cmd1 := mke2fsArgv location size
        if env.mke2fsStatus ≠ 0 then (OpResult.ok (Val.str ""), [cmd1])
        else
          let cmd2 := e2fsdroidArgv mount_point location
          if env.e2fsdroidStatus ≠ 0 then (OpResult.ok (Val.str ""), [cmd1, cmd2])
          else (OpResult.ok (Val.str location), [cmd1, cmd2])
      else if fs_type = "f2fs" then
        if size < 0 then (OpResult.ok (Val.str ""), [])
        else
          let cmd1 := mkfsF2fsArgv location size
          if env.mkfsF2fsStatus ≠ 0 then (OpResult.ok (Val.str ""), [cmd1])
          else
            let cmd2 := sloadArgv mount_point location
            if env.sloadStatus ≠ 0 then (OpResult.ok (Val.str ""), [cmd1, cmd2])
            else (OpResult.ok (Val.str location), [cmd1, cmd2])
      else (OpResult.null, [])

/-- Outcome of the `mount` system call made by `MountFn`. -/
structure MountEnv where
  mountOk : Bool := true
deriving DecidableEq, Repr

/-- `MountFn` (install.cpp:381-440) at the evaluated-argument level:
4 or 5 arguments required, the four named arguments must be
non-empty; a failed `mount` system call prints a diagnostic and
returns the empty string; success returns the mount point. -/
def MountFn (args : List String) (env : MountEnv) : OpResult :=
  match args with
  | fs_type :: partition_type :: location :: mount_point :: rest =>
    if rest.length ≥ 2 then OpResult.abort ErrorKind.kArgsParsingFailure
    else if fs_type = "" then OpResult.abort ErrorKind.kArgsParsingFailure
    else if partition_type = "" then OpResult.abort ErrorKind.kArgsParsingFailure
    else if location = "" then OpResult.abort ErrorKind.kArgsParsingFailure
    else if mount_point = "" then OpResult.abort ErrorKind.kArgsParsingFailure
    else if ¬ env.mountOk then OpResult.ok (Val.str "")
    else OpResult.ok (Val.str mount_point)
  | _ => OpResult.abort ErrorKind.kArgsParsingFailure

/-- State of the freshly rescanned mount table and of the unmount
system call as seen by `UnmountFn`: whether
`find_mounted_volume_by_mount_point` finds the point, and whether
`unmount_mounted_volume` would succeed on it. -/
structure UnmountEnv where
  volFound : Bool := true
  unmountOk : Bool := true
deriving DecidableEq, Repr

/-- `UnmountFn` (install.cpp:467-494): exactly one non-empty mount
point argument; an unknown mount point prints a diagnostic and
returns `nullptr`; a known one is unmounted, a failed unmount only
printing a diagnostic, and the mount point string is returned either
way. The second component lists the diagnostics printed. -/
def UnmountFn (args : List String) (env : UnmountEnv) : OpResult × List String :=
  match args with
  | [mount_point] =>
    if mount_point = "" then (OpResult.abort ErrorKind.kArgsParsingFailure, [])
    else if ¬ env.volFound then
      (OpResult.null, ["Failed to unmount " ++ mount_point ++ ": No such volume"])
    else if ¬ env.unmountOk then
      (OpResult.ok (Val.str mount_point), ["Failed to unmount " ++ mount_point])
    else (OpResult.ok (Val.str mount_point), [])
  | _ => (OpResult.abort ErrorKind.kArgsParsingFailure, [])

/-! ## Patch application (`apply_patch`) -/

/-- Whether a value is a plain string (`VAL_STRING`). -/
def Val.isStr : Val → Bool
  | Val.str _ => true
  | _ => false

/-- Whether a value is a blob (`VAL_BLOB`). -/
def Val.isBlob : Val → Bool
  | Val.blob _ => true
  | _ => false

/-- The per-pair type check of install.cpp:282-289: even positions
(sha-1) must be strings, odd positions (patch) must be blobs. -/
def pairsTyped : List Val → Bool
  | [] => true
  | s :: b :: rest => s.isStr && b.isBlob && pairsTyped rest
  | [_] => false

/-- `ApplyPatchFn` (install.cpp:252-302) at the evaluated-argument
level, with `parsedSize` the outcome of the `android::base::ParseUint`
library call on the fourth argument and `applypatchOk` whether the
`applypatch` collaborator reports success: fewer than 6 arguments or
an odd count aborts; the first four arguments must read as strings;
an unparseable size aborts; a mistyped checksum/blob pair aborts;
otherwise the collaborator runs and the call returns "t" on its
success and "" otherwise. The second component records whether the
`applypatch` collaborator was invoked. -/
def ApplyPatchFn (args : List Val) (parsedSize : Option Nat) (applypatchOk : Bool) :
    OpResult × Bool :=
  if args.length < 6 ∨ args.length % 2 = 1 then
    (OpResult.abort ErrorKind.kArgsParsingFailure, false)
  else if ¬ (args.take 4).all Val.isStr then
    (OpResult.abort ErrorKind.kArgsParsingFailure, false)
  else
    match parsedSize with
    | none => (OpResult.abort ErrorKind.kArgsParsingFailure, false)
    | some _ =>
      if ¬ pairsTyped (args.drop 4) then
        (OpResult.abort ErrorKind.kArgsParsingFailure, false)
      else (OpResult.ok (Val.str (if applypatchOk then "t" else "")), true)

/-! ## Package extraction (`package_extract_file`) -/

/-- Outcomes of the package-reader and file-system calls made by
`PackageExtractFileFn` for one entry path: whether `FindEntry`
locates the entry, whether `ota_open` can open the destination,
whether `ExtractEntryToFile` / `ExtractToMemory` succeed, whether
`ota_fsync` and `ota_close` succeed, and the entry's contents. -/
structure PkgEnv where
  findOk : Bool := true
  openOk : Bool := true
  extractToFileOk : Bool := true
  fsyncOk : Bool := true
  closeOk : Bool := true
  extractToMemoryOk : Bool := true
  entryContents : String := ""
deriving DecidableEq, Repr

/-- The one-argument form of `PackageExtractFileFn`
(install.cpp:207-237): an entry missing from the package aborts with
`kPackageExtractFileFailure`, a failed extraction to memory aborts
with the same kind, and otherwise the contents are returned as a
blob. -/
def PackageExtractFile1 (env : PkgEnv) : OpResult :=
  if ¬ env.findOk then OpResult.abort ErrorKind.kPackageExtractFileFailure
  else if ¬ env.extractToMemoryOk then OpResult.abort ErrorKind.kPackageExtractFileFailure
  else OpResult.ok (Val.blob env.entryContents)

/-- The two-argument form of `PackageExtractFileFn`
(install.cpp:163-206): a missing entry or an unopenable destination
returns the empty string; otherwise extraction, fsync and close are
all attempted, any failure clearing the success flag, and the call
returns "t" when all three succeeded and "" otherwise. -/
def PackageExtractFile2 (env : PkgEnv) : OpResult :=
  if ¬ env.findOk then OpResult.ok (Val.str "")
  else if ¬ env.openOk then OpResult.ok (Val.str "")
  else
    let success := env.extractToFileOk && env.fsyncOk && env.closeOk
    OpResult.ok (Val.str (if success then "t" else ""))

/-! ## The return-value forms of the claim about operation results -/

/-- Following the spec's words for the return-form claim: a result is
one of the truthy string "t", the falsy empty string "", a data blob,
or an abort with a named error kind. -/
def specClaimedReturnForm : OpResult → Bool
  | OpResult.ok (Val.str s) => s == "t" || s == ""
  | OpResult.ok (Val.blob _) => true
  | OpResult.ok Val.invalid => false
  | OpResult.null => false
  | OpResult.abort _ => true

/-! ## The remaining registered operations, at the return-value level

Each handler below is translated from its source function with the
same control flow; collaborator and system-call outcomes (argument
evaluation via `ReadArgs`/`Evaluate`/`ReadValueArgs`, parses done by
the android-base library, child-process statuses, file system calls)
enter as explicit outcome parameters. Where an evaluation failure and
an arity failure produce the same abort kind, the order of the two
checks does not affect the returned value. -/

/-- `UIPrintFn` (install.cpp:141-150): evaluation failure aborts;
otherwise the arguments joined with no separator are printed and
returned. -/
def UIPrintFn (args : List String) (readArgsOk : Bool) : OpResult :=
  if ¬ readArgsOk then OpResult.abort ErrorKind.kArgsParsingFailure
  else OpResult.ok (Val.str (String.join args))

/-- `IsMountedFn` (install.cpp:443-465): one non-empty mount point
required; the point is returned when found in the rescanned mount
table, the empty string when not. -/
def IsMountedFn (args : List String) (readArgsOk found : Bool) : OpResult :=
  match args with
  | [mount_point] =>
    if ¬ readArgsOk then OpResult.abort ErrorKind.kArgsParsingFailure
    else if mount_point = "" then OpResult.abort ErrorKind.kArgsParsingFailure
    else if ¬ found then OpResult.ok (Val.str "")
    else OpResult.ok (Val.str mount_point)
  | _ => OpResult.abort ErrorKind.kArgsParsingFailure

/-- `ShowProgressFn` (install.cpp:680-709): two arguments, both must
parse (fraction as double, seconds as int); returns the fraction
string. -/
def ShowProgressFn (args : List String) (readArgsOk fracParsed secParsed : Bool) :
    OpResult :=
  match args with
  | [frac_str, _] =>
    if ¬ readArgsOk then OpResult.abort ErrorKind.kArgsParsingFailure
    else if ¬ fracParsed then OpResult.abort ErrorKind.kArgsParsingFailure
    else if ¬ secParsed then OpResult.abort ErrorKind.kArgsParsingFailure
    else OpResult.ok (Val.str frac_str)
  | _ => OpResult.abort ErrorKind.kArgsParsingFailure

/-- `SetProgressFn` (install.cpp:711-733): one argument that must
parse as a double; returns the fraction string. -/
def SetProgressFn (args : List String) (readArgsOk fracParsed : Bool) : OpResult :=
  match args with
  | [frac_str] =>
    if ¬ readArgsOk then OpResult.abort ErrorKind.kArgsParsingFailure
    else if ¬ fracParsed then OpResult.abort ErrorKind.kArgsParsingFailure
    else OpResult.ok (Val.str frac_str)
  | _ => OpResult.abort ErrorKind.kArgsParsingFailure

/-- `DeleteFn` (install.cpp:661-677), serving both delete and
delete_recursive: evaluation failure returns `nullptr`; otherwise the
count of paths whose unlink (or recursive unlink) succeeded is
returned as a decimal string; `removeOk` is the per-path outcome of
that system call. -/
def DeleteFn (paths : List String) (readArgsOk : Bool) (removeOk : String → Bool) :
    OpResult :=
  if ¬ readArgsOk then OpResult.null
  else OpResult.ok (Val.str (toString (paths.countP removeOk)))

/-- `PackageExtractDirFn` (install.cpp:741-763): two arguments;
returns "t" when the recursive extraction collaborator succeeds and
"" otherwise. -/
def PackageExtractDirFn (args : List String) (readArgsOk extractOk : Bool) : OpResult :=
  match args with
  | [_, _] =>
    if ¬ readArgsOk then OpResult.abort ErrorKind.kArgsParsingFailure
    else OpResult.ok (Val.str (if extractOk then "t" else ""))
  | _ => OpResult.abort ErrorKind.kArgsParsingFailure

/-- `SymlinkFn` (install.cpp:768-800): at least one argument; a
failed evaluation of the target returns `nullptr`; `badCount` is the
number of sources whose unlink/make-parents/symlink sequence failed,
a nonzero count aborting with `kSymlinkFailure`. -/
def SymlinkFn (args : List String) (evalTargetOk readArgsOk : Bool) (badCount : Nat) :
    OpResult :=
  if args.length = 0 then OpResult.abort ErrorKind.kArgsParsingFailure
  else if ¬ evalTargetOk then OpResult.null
  else if ¬ readArgsOk then OpResult.abort ErrorKind.kArgsParsingFailure
  else if badCount ≠ 0 then OpResult.abort ErrorKind.kSymlinkFailure
  else OpResult.ok (Val.str "t")

/-- `SetMetadataFn` (install.cpp:1009-1045), serving both
set_metadata and set_metadata_recursive: an even argument count
aborts (the path plus key/value pairs make an odd count); a failed
`lstat` of the target aborts with `kSetMetadataFailure`; `p` is the
spec `ParsePermArgs` builds from the pairs, and the call then runs
the single-target or recursive application. -/
def SetMetadataFn (args : List String) (readArgsOk lstatOk recursive : Bool)
    (p : PermParsedArgs) (target : FileEnv) (tree : List FileEnv) : OpResult :=
  if args.length % 2 ≠ 1 then OpResult.abort ErrorKind.kArgsParsingFailure
  else if ¬ readArgsOk then OpResult.abort ErrorKind.kArgsParsingFailure
  else if ¬ lstatOk then OpResult.abort ErrorKind.kSetMetadataFailure
  else if recursive then SetMetadataRecursive p tree
  else SetMetadataSingle p target

/-- `GetPropFn` (install.cpp:1047-1058): one argument; a failed
evaluation returns `nullptr`; otherwise the property's value (a
collaborator lookup, possibly empty) is returned. -/
def GetPropFn (args : List String) (evalOk : Bool) (value : String) : OpResult :=
  if args.length ≠ 1 then OpResult.abort ErrorKind.kArgsParsingFailure
  else if ¬ evalOk then OpResult.null
  else OpResult.ok (Val.str value)

/-- `FileGetPropFn` (install.cpp:1065-1129): two arguments; stat
failure or an over-large file aborts with `kFileGetPropFailure`, a
failed open with `kFileOpenFailure`, a short read with
`kFreadFailure` (`ErrorAbort` then `nullptr`); otherwise the value
found for the key is returned, or "" when the key is absent. -/
def FileGetPropFn (args : List String) (readArgsOk statOk sizeOk openOk freadOk : Bool)
    (found : Option String) : OpResult :=
  match args with
  | [_, _] =>
    if ¬ readArgsOk then OpResult.abort ErrorKind.kArgsParsingFailure
    else if ¬ statOk then OpResult.abort ErrorKind.kFileGetPropFailure
    else if ¬ sizeOk then OpResult.abort ErrorKind.kFileGetPropFailure
    else if ¬ openOk then OpResult.abort ErrorKind.kFileOpenFailure
    else if ¬ freadOk then OpResult.abort ErrorKind.kFreadFailure
    else OpResult.ok (Val.str (found.getD ""))
  | _ => OpResult.abort ErrorKind.kArgsParsingFailure

/-- `ApplyPatchCheckFn` (install.cpp:310-330): at least one argument;
returns "t" when the applypatch_check collaborator reports a match of
the file or its cache copy, "" otherwise. -/
def ApplyPatchCheckFn (args : List String) (readArgsOk checkOk : Bool) : OpResult :=
  if args.length < 1 then OpResult.abort ErrorKind.kArgsParsingFailure
  else if ¬ readArgsOk then OpResult.abort ErrorKind.kArgsParsingFailure
  else OpResult.ok (Val.str (if checkOk then "t" else ""))

/-- `ApplyPatchSpaceFn` (install.cpp:1132-1155): one argument that
must parse as a byte count; succeeds when the run is a retry or the
cache-size collaborator approves. -/
def ApplyPatchSpaceFn (args : List String) (readArgsOk bytesParsed isRetry cacheOk : Bool) :
    OpResult :=
  if args.length ≠ 1 then OpResult.abort ErrorKind.kArgsParsingFailure
  else if ¬ readArgsOk then OpResult.abort ErrorKind.kArgsParsingFailure
  else if ¬ bytesParsed then OpResult.abort ErrorKind.kArgsParsingFailure
  else OpResult.ok (Val.str (if isRetry || cacheOk then "t" else ""))

/-- `WipeBlockDeviceFn` (install.cpp:1365-1387): two arguments; a
length that fails the unsigned parse returns `nullptr`; otherwise
"t" or "" tracks the wipe collaborator's status. -/
def WipeBlockDeviceFn (args : List String) (readArgsOk lenParsed wipeOk : Bool) :
    OpResult :=
  if args.length ≠ 2 then OpResult.abort ErrorKind.kArgsParsingFailure
  else if ¬ readArgsOk then OpResult.abort ErrorKind.kArgsParsingFailure
  else if ¬ lenParsed then OpResult.null
  else OpResult.ok (Val.str (if wipeOk then "t" else ""))

/-- `ReadFileFn` (install.cpp:1206-1225): one argument; the value is
created as `VAL_INVALID` and becomes a blob of the contents only when
`LoadFileContents` succeeds, so a failed load returns the invalid
value. -/
def ReadFileFn (args : List String) (readArgsOk loadOk : Bool) (contents : String) :
    OpResult :=
  if args.length ≠ 1 then OpResult.abort ErrorKind.kArgsParsingFailure
  else if ¬ readArgsOk then OpResult.abort ErrorKind.kArgsParsingFailure
  else if loadOk then OpResult.ok (Val.blob contents)
  else OpResult.ok Val.invalid

/-- The string contents of the string-typed values in a list. -/
def valStrings (l : List Val) : List String :=
  l.filterMap fun v =>
    match v with
    | Val.str s => some s
    | _ => none

/-- The loop of `Sha1CheckFn` (install.cpp:360-371): the first
string-typed argument whose parsed sha-1 matches the computed digest
(`argMatches` is the collaborator outcome of `ParseSha1` plus
`memcmp`; non-string and unparseable arguments are skipped). -/
def sha1FirstMatch (argMatches : String → Bool) : List Val → Option String
  | [] => none
  | Val.str s :: rest =>
      if argMatches s then some s else sha1FirstMatch argMatches rest
  | _ :: rest => sha1FirstMatch argMatches rest

/-- `Sha1CheckFn` (install.cpp:340-375): at least one argument; a
failed value evaluation returns `nullptr`; an invalid first value
returns ""; with a single argument the digest's hex form is
returned; otherwise the first matching checksum argument is returned
verbatim, or "" when none matches. -/
def Sha1CheckFn (args : List Val) (readValueArgsOk : Bool) (sha1Hex : String)
    (argMatches : String → Bool) : OpResult :=
  match args with
  | [] => OpResult.abort ErrorKind.kArgsParsingFailure
  | v0 :: rest =>
    if ¬ readValueArgsOk then OpResult.null
    else if v0 = Val.invalid then OpResult.ok (Val.str "")
    else if rest.length = 0 then OpResult.ok (Val.str sha1Hex)
    else
      match sha1FirstMatch argMatches rest with
      | some s => OpResult.ok (Val.str s)
      | none => OpResult.ok (Val.str "")

/-- `RenameFn` (install.cpp:622-653): two non-empty arguments; a
failed parent creation aborts with `kFileRenameFailure`; a
destination that exists while the source is gone counts as already
moved; otherwise a failed rename aborts and a successful one returns
the destination name. -/
def RenameFn (args : List String)
    (readArgsOk makeParentsOk dstExists srcExists renameOk : Bool) : OpResult :=
  match args with
  | [src_name, dst_name] =>
    if ¬ readArgsOk then OpResult.abort ErrorKind.kArgsParsingFailure
    else if src_name = "" then OpResult.abort ErrorKind.kArgsParsingFailure
    else if dst_name = "" then OpResult.abort ErrorKind.kArgsParsingFailure
    else if ¬ makeParentsOk then OpResult.abort ErrorKind.kFileRenameFailure
    else if dstExists ∧ ¬ srcExists then OpResult.ok (Val.str dst_name)
    else if ¬ renameOk then OpResult.abort ErrorKind.kFileRenameFailure
    else OpResult.ok (Val.str dst_name)
  | _ => OpResult.abort ErrorKind.kArgsParsingFailure

/-- `WriteValueFn` (install.cpp:1230-1253): two arguments, the
filename non-empty; a failed write returns "", success "t". -/
def WriteValueFn (args : List String) (readArgsOk writeOk : Bool) : OpResult :=
  match args with
  | [_, filename] =>
    if ¬ readArgsOk then OpResult.abort ErrorKind.kArgsParsingFailure
    else if filename = "" then OpResult.abort ErrorKind.kArgsParsingFailure
    else if ¬ writeOk then OpResult.ok (Val.str "")
    else OpResult.ok (Val.str "t")
  | _ => OpResult.abort ErrorKind.kArgsParsingFailure

/-- `WipeCacheFn` (install.cpp:1157-1164): no arguments allowed; the
wipe_cache token is emitted and "t" returned. -/
def WipeCacheFn (args : List String) : OpResult :=
  if ¬ args.isEmpty then OpResult.abort ErrorKind.kArgsParsingFailure
  else OpResult.ok (Val.str "t")

/-- `RunProgramFn` (install.cpp:1166-1202): at least one argument;
returns the raw child wait status as a decimal string. -/
def RunProgramFn (args : List String) (readArgsOk : Bool) (status : Int) : OpResult :=
  if args.length < 1 then OpResult.abort ErrorKind.kArgsParsingFailure
  else if ¬ readArgsOk then OpResult.abort ErrorKind.kArgsParsingFailure
  else OpResult.ok (Val.str (toString status))

/-- `EnableRebootFn` (install.cpp:1389-1397): no arguments allowed;
the enable_reboot token is emitted and "t" returned. -/
def EnableRebootFn (args : List String) : OpResult :=
  if ¬ args.isEmpty then OpResult.abort ErrorKind.kArgsParsingFailure
  else OpResult.ok (Val.str "t")

/-- `Tune2FsFn` (install.cpp:1399-1430): without libtune2fs the call
always aborts with `kTune2FsFailure`; with it, at least one argument
is required and a nonzero `tune2fs_main` result aborts with
`kTune2FsFailure` (the source's null check on the operation name
string can never fire, the registry always supplying one). -/
def Tune2FsFn (args : List String) (haveLibtune2fs readArgsOk : Bool)
    (tuneResult : Int) : OpResult :=
  if ¬ haveLibtune2fs then OpResult.abort ErrorKind.kTune2FsFailure
  else if args.isEmpty then OpResult.abort ErrorKind.kArgsParsingFailure
  else if ¬ readArgsOk then OpResult.abort ErrorKind.kArgsParsingFailure
  else if tuneResult ≠ 0 then OpResult.abort ErrorKind.kTune2FsFailure
  else OpResult.ok (Val.str "t")

/-- `PackageExtractFileFn` (install.cpp:156-238): one or two
arguments; the branches are `PackageExtractFile1` and
`PackageExtractFile2`. -/
def PackageExtractFileFn (args : List String) (readArgsOk : Bool) (env : PkgEnv) :
    OpResult :=
  match args with
  | [_] =>
    if ¬ readArgsOk then OpResult.abort ErrorKind.kArgsParsingFailure
    else PackageExtractFile1 env
  | [_, _] =>
    if ¬ readArgsOk then OpResult.abort ErrorKind.kArgsParsingFailure
    else PackageExtractFile2 env
  | _ => OpResult.abort ErrorKind.kArgsParsingFailure

/-! ## The operation registry -/

/-- One invocation of a registered operation: a constructor per
registry entry of `RegisterInstallFunctions` (install.cpp:1432-1485),
carrying that operation's evaluated arguments and collaborator
outcomes. The delete and set_metadata entries carry the flag their
shared handler reads from the registered name. -/
inductive Invocation where
  | mount (args : List String) (readArgsOk : Bool) (env : MountEnv)
  | is_mounted (args : List String) (readArgsOk found : Bool)
  | unmount (args : List String) (readArgsOk : Bool) (env : UnmountEnv)
  | format (args : List String) (readArgsOk : Bool) (parsedSize : Option Int)
      (env : ExecEnv)
  | show_progress (args : List String) (readArgsOk fracParsed secParsed : Bool)
  | set_progress (args : List String) (readArgsOk fracParsed : Bool)
  | delete (recursive : Bool) (paths : List String) (readArgsOk : Bool)
      (removeOk : String → Bool)
  | package_extract_dir (args : List String) (readArgsOk extractOk : Bool)
  | package_extract_file (args : List String) (readArgsOk : Bool) (env : PkgEnv)
  | symlink (args : List String) (evalTargetOk readArgsOk : Bool) (badCount : Nat)
  | set_metadata (recursive : Bool) (args : List String) (readArgsOk lstatOk : Bool)
      (p : PermParsedArgs) (target : FileEnv) (tree : List FileEnv)
  | getprop (args : List String) (evalOk : Bool) (value : String)
  | file_getprop (args : List String) (readArgsOk statOk sizeOk openOk freadOk : Bool)
      (found : Option String)
  | apply_patch (args : List Val) (readArgsOk : Bool) (parsedSize : Option Nat)
      (readValueArgsOk patchOk : Bool)
  | apply_patch_check (args : List String) (readArgsOk checkOk : Bool)
  | apply_patch_space (args : List String) (readArgsOk bytesParsed isRetry cacheOk : Bool)
  | wipe_block_device (args : List String) (readArgsOk lenParsed wipeOk : Bool)
  | read_file (args : List String) (readArgsOk loadOk : Bool) (contents : String)
  | sha1_check (args : List Val) (readValueArgsOk : Bool) (sha1Hex : String)
      (argMatches : String → Bool)
  | rename (args : List String) (readArgsOk makeParentsOk dstExists srcExists renameOk : Bool)
  | write_value (args : List String) (readArgsOk writeOk : Bool)
  | wipe_cache (args : List String)
  | ui_print (args : List String) (readArgsOk : Bool)
  | run_program (args : List String) (readArgsOk : Bool) (status : Int)
  | reboot_now (args : List String) (readArgsOk : Bool) (env : BootEnv)
  | get_stage (args : List String) (readArgsOk : Bool) (env : BootEnv)
  | set_stage (args : List String) (readArgsOk : Bool) (env : BootEnv)
  | enable_reboot (args : List String)
  | tune2fs (args : List String) (haveLibtune2fs readArgsOk : Bool) (tuneResult : Int)

/-- The registered name the dispatcher binds each invocation to
(install.cpp:1432-1485). -/
def registeredName : Invocation → String
  | Invocation.mount _ _ _ => "mount"
  | Invocation.is_mounted _ _ _ => "is_mounted"
  | Invocation.unmount _ _ _ => "unmount"
  | Invocation.format _ _ _ _ => "format"
  | Invocation.show_progress _ _ _ _ => "show_progress"
  | Invocation.set_progress _ _ _ => "set_progress"
  | Invocation.delete true _ _ _ => "delete_recursive"
  | Invocation.delete false _ _ _ => "delete"
  | Invocation.package_extract_dir _ _ _ => "package_extract_dir"
  | Invocation.package_extract_file _ _ _ => "package_extract_file"
  | Invocation.symlink _ _ _ _ => "symlink"
  | Invocation.set_metadata true _ _ _ _ _ _ => "set_metadata_recursive"
  | Invocation.set_metadata false _ _ _ _ _ _ => "set_metadata"
  | Invocation.getprop _ _ _ => "getprop"
  | Invocation.file_getprop _ _ _ _ _ _ _ => "file_getprop"
  | Invocation.apply_patch _ _ _ _ _ => "apply_patch"
  | Invocation.apply_patch_check _ _ _ => "apply_patch_check"
  | Invocation.apply_patch_space _ _ _ _ _ => "apply_patch_space"
  | Invocation.wipe_block_device _ _ _ _ => "wipe_block_device"
  | Invocation.read_file _ _ _ _ => "read_file"
  | Invocation.sha1_check _ _ _ _ => "sha1_check"
  | Invocation.rename _ _ _ _ _ _ => "rename"
  | Invocation.write_value _ _ _ => "write_value"
  | Invocation.wipe_cache _ => "wipe_cache"
  | Invocation.ui_print _ _ => "ui_print"
  | Invocation.run_program _ _ _ => "run_program"
  | Invocation.reboot_now _ _ _ => "reboot_now"
  | Invocation.get_stage _ _ _ => "get_stage"
  | Invocation.set_stage _ _ _ => "set_stage"
  | Invocation.enable_reboot _ => "enable_reboot"
  | Invocation.tune2fs _ _ _ _ => "tune2fs"

/-- The names `RegisterInstallFunctions` registers, in source order
(install.cpp:1432-1485). -/
def registryNames : List String :=
  ["mount", "is_mounted", "unmount", "format", "show_progress", "set_progress",
   "delete", "delete_recursive", "package_extract_dir", "package_extract_file",
   "symlink", "set_metadata", "set_metadata_recursive", "getprop", "file_getprop",
   "apply_patch", "apply_patch_check", "apply_patch_space", "wipe_block_device",
   "read_file", "sha1_check", "rename", "write_value", "wipe_cache", "ui_print",
   "run_program", "reboot_now", "get_stage", "set_stage", "enable_reboot", "tune2fs"]

/-- Runs one invocation to its script-visible result: `none` when
control never returns (a reboot that took effect), otherwise the
returned value. Arms that wrap an already-defined handler add only
that handler's missing arity and evaluation-failure gates, at their
source positions. -/
def runOp : Invocation → Option OpResult
  | Invocation.mount args rok env =>
      some (if ¬ rok then OpResult.abort ErrorKind.kArgsParsingFailure
        else MountFn args env)
  | Invocation.is_mounted args rok found => some (IsMountedFn args rok found)
  | Invocation.unmount args rok env =>
      some (if ¬ rok then OpResult.abort ErrorKind.kArgsParsingFailure
        else (UnmountFn args env).1)
  | Invocation.format args rok ps env =>
      some (match args with
        | [a, b, c, d, e] =>
          if ¬ rok then OpResult.abort ErrorKind.kArgsParsingFailure
          else (FormatFn a b c d e ps env).1
        | _ => OpResult.abort ErrorKind.kArgsParsingFailure)
  | Invocation.show_progress args rok fp sp => some (ShowProgressFn args rok fp sp)
  | Invocation.set_progress args rok fp => some (SetProgressFn args rok fp)
  | Invocation.delete _ paths rok removeOk => some (DeleteFn paths rok removeOk)
  | Invocation.package_extract_dir args rok xok => some (PackageExtractDirFn args rok xok)
  | Invocation.package_extract_file args rok env => some (PackageExtractFileFn args rok env)
  | Invocation.symlink args evok rok bad => some (SymlinkFn args evok rok bad)
  | Invocation.set_metadata recursive args rok lok p target tree =>
      some (SetMetadataFn args rok lok recursive p target tree)
  | Invocation.getprop args evok value => some (GetPropFn args evok value)
  | Invocation.file_getprop args rok st sz op fr found =>
      some (FileGetPropFn args rok st sz op fr found)
  | Invocation.apply_patch args rok ps rvok pok =>
      some (if args.length < 6 ∨ args.length % 2 = 1 then
          OpResult.abort ErrorKind.kArgsParsingFailure
        else if ¬ rok then OpResult.abort ErrorKind.kArgsParsingFailure
        else match ps with
          | none => OpResult.abort ErrorKind.kArgsParsingFailure
          | some n =>
            if ¬ rvok then OpResult.null
            else (ApplyPatchFn args (some n) pok).1)
  | Invocation.apply_patch_check args rok cok => some (ApplyPatchCheckFn args rok cok)
  | Invocation.apply_patch_space args rok bp retry cok =>
      some (ApplyPatchSpaceFn args rok bp retry cok)
  | Invocation.wipe_block_device args rok lp wok => some (WipeBlockDeviceFn args rok lp wok)
  | Invocation.read_file args rok lok contents => some (ReadFileFn args rok lok contents)
  | Invocation.sha1_check args rvok hex f => some (Sha1CheckFn args rvok hex f)
  | Invocation.rename args rok mpok de se renok => some (RenameFn args rok mpok de se renok)
  | Invocation.write_value args rok wok => some (WriteValueFn args rok wok)
  | Invocation.wipe_cache args => some (WipeCacheFn args)
  | Invocation.ui_print args rok => some (UIPrintFn args rok)
  | Invocation.run_program args rok status => some (RunProgramFn args rok status)
  | Invocation.reboot_now args rok env =>
      match args with
      | [_, _] =>
        if ¬ rok then some (OpResult.abort ErrorKind.kArgsParsingFailure)
        else
          match (RebootNowFn env).1 with
          | RebootOutcome.rebooted => none
          | RebootOutcome.returned r => some r
      | _ => some (OpResult.abort ErrorKind.kArgsParsingFailure)
  | Invocation.get_stage args rok env =>
      some (match args with
        | [_] =>
          if ¬ rok then OpResult.abort ErrorKind.kArgsParsingFailure
          else GetStageFn env
        | _ => OpResult.abort ErrorKind.kArgsParsingFailure)
  | Invocation.set_stage args rok env =>
      some (match args with
        | [filename, stagestr] =>
          if ¬ rok then OpResult.abort ErrorKind.kArgsParsingFailure
          else (SetStageFn filename stagestr.toList env).1
        | _ => OpResult.abort ErrorKind.kArgsParsingFailure)
  | Invocation.enable_reboot args => some (EnableRebootFn args)
  | Invocation.tune2fs args hl rok res => some (Tune2FsFn args hl rok res)

/-- The truthy strings each operation may return besides "t": its own
subject or computed output. -/
def allowedStrings : Invocation → List String
  | Invocation.mount args _ _ =>
      match args with
      | _ :: _ :: _ :: mount_point :: _ => [mount_point]
      | _ => []
  | Invocation.is_mounted args _ _ =>
      match args with
      | mount_point :: _ => [mount_point]
      | _ => []
  | Invocation.unmount args _ _ =>
      match args with
      | mount_point :: _ => [mount_point]
      | _ => []
  | Invocation.format args _ _ _ =>
      match args with
      | _ :: _ :: location :: _ => [location]
      | _ => []
  | Invocation.show_progress args _ _ _ =>
      match args with
      | frac_str :: _ => [frac_str]
      | _ => []
  | Invocation.set_progress args _ _ =>
      match args with
      | frac_str :: _ => [frac_str]
      | _ => []
  | Invocation.delete _ paths _ removeOk => [toString (paths.countP removeOk)]
  | Invocation.package_extract_dir _ _ _ => []
  | Invocation.package_extract_file _ _ _ => []
  | Invocation.symlink _ _ _ _ => []
  | Invocation.set_metadata _ _ _ _ _ _ _ => []
  | Invocation.getprop _ _ value => [value]
  | Invocation.file_getprop _ _ _ _ _ _ found => [found.getD ""]
  | Invocation.apply_patch _ _ _ _ _ => []
  | Invocation.apply_patch_check _ _ _ => []
  | Invocation.apply_patch_space _ _ _ _ _ => []
  | Invocation.wipe_block_device _ _ _ _ => []
  | Invocation.read_file _ _ _ _ => []
  | Invocation.sha1_check args _ hex _ => hex :: valStrings args
  | Invocation.rename args _ _ _ _ _ =>
      match args with
      | _ :: dst_name :: _ => [dst_name]
      | _ => []
  | Invocation.write_value _ _ _ => []
  | Invocation.wipe_cache _ => []
  | Invocation.ui_print args _ => [String.join args]
  | Invocation.run_program _ _ status => [toString status]
  | Invocation.reboot_now _ _ _ => []
  | Invocation.get_stage _ _ env => [String.mk env.record.stage]
  | Invocation.set_stage args _ _ =>
      match args with
      | filename :: _ => [filename]
      | _ => []
  | Invocation.enable_reboot _ => []
  | Invocation.tune2fs _ _ _ _ => []

/-- Whether a result's string content (when it is a plain string)
lies within the marker "t", the falsy "", or the given allowed
list; results of every other shape are unconstrained here. -/
def stringFormOk (allowed : List String) : OpResult → Bool
  | OpResult.ok (Val.str s) => s == "t" || s == "" || allowed.contains s
  | _ => true

/-- The mount invocation used to instantiate the return-form
theorem. -/
def mountInvC7 : Invocation :=
  Invocation.mount ["ext4", "EMMC", "/dev/block/by-name/userdata", "/data"] true {}

end Updater

/-! # Theorems about the claims -/

namespace Updater

/-- The walk accumulates no failure exactly when every entry of the
tree applies all its attributes cleanly. -/
theorem nftwWalk_eq_zero_iff (p : PermParsedArgs) (es : List FileEnv) :
    nftwWalk p es = 0 ↔ ∀ e ∈ es, ApplyParsedPerms p e = 0 := by
  induction es with
  | nil => simp [nftwWalk]
  | cons e rest ih =>
    by_cases h : ApplyParsedPerms p e = 0
    · simp [nftwWalk, h, ih]
    · simp [nftwWalk, h]

/-- The walk's return value is the first nonzero per-entry failure
count in walk order (or 0 when there is none). -/
theorem nftwWalk_eq_firstBad (p : PermParsedArgs) (es : List FileEnv) :
    nftwWalk p es = firstBad p es := by
  induction es with
  | nil => rfl
  | cons e rest ih =>
    by_cases h : ApplyParsedPerms p e = 0
    · simp [nftwWalk, firstBad, List.dropWhile_cons, h] at *
      exact ih
    · simp [nftwWalk, firstBad, List.dropWhile_cons, h]

/-- The visited entries are exactly the clean ones up to the first
failing entry, plus that failing entry when it exists. -/
theorem nftwVisited_eq (p : PermParsedArgs) (es : List FileEnv) :
    nftwVisited p es =
      es.takeWhile (fun e => ApplyParsedPerms p e == 0)
        ++ (es.dropWhile (fun e => ApplyParsedPerms p e == 0)).take 1 := by
  induction es with
  | nil => rfl
  | cons e rest ih =>
    by_cases h : ApplyParsedPerms p e = 0
    · simp [nftwVisited, List.takeWhile_cons, List.dropWhile_cons, h]
      exact ih
    · simp [nftwVisited, List.takeWhile_cons, List.dropWhile_cons, h]

end Updater

namespace Updater

/-- The permission spec of the C1 counterexample: a single mode
attribute (chmod to 0644). -/
def permC1 : PermParsedArgs := { has_mode := true, mode := 420 }

/-- A regular-file entry on which that chmod fails. -/
def entryC1 : FileEnv := { kind := FileKind.reg, chmodModeOk := false }

/-- C1 counterexample: a two-entry tree in which each entry's single
attribute application fails (so K = 2 failures over N = 2 entries).
The claim says the aggregate failure count equals K = 2 and every
entry is attempted; the code's walk stops at the first failing entry,
reports an aggregate of 1, and never attempts the second entry. -/
theorem set_metadata_recursive_early_abort_counterexample :
    ApplyParsedPerms permC1 entryC1 + ApplyParsedPerms permC1 entryC1 = 2
    ∧ nftwWalk permC1 [entryC1, entryC1] = 1
    ∧ nftwVisited permC1 [entryC1, entryC1] = [entryC1]
    ∧ SetMetadataRecursive permC1 [entryC1, entryC1]
        = OpResult.abort ErrorKind.kSetMetadataFailure := by
  decide

/-- C1 (amended): the recursive walk attempts entries in walk order
only up to and including the first entry with a failing attribute
application; the aggregate counter equals that first entry's own
failure count (`firstBad`), not the sum over the tree; the call still
aborts with a set-metadata failure exactly when some entry of the
tree has a failing attribute application, and returns cleanly exactly
when no entry fails. -/
theorem set_metadata_recursive_stops_at_first_failure (p : PermParsedArgs)
    (es : List FileEnv) :
    (SetMetadataRecursive p es = OpResult.abort ErrorKind.kSetMetadataFailure
        ↔ ∃ e ∈ es, ApplyParsedPerms p e ≠ 0)
    ∧ (SetMetadataRecursive p es = OpResult.ok (Val.str "")
        ↔ ∀ e ∈ es, ApplyParsedPerms p e = 0)
    ∧ nftwWalk p es = firstBad p es
    ∧ nftwVisited p es =
        es.takeWhile (fun e => ApplyParsedPerms p e == 0)
          ++ (es.dropWhile (fun e => ApplyParsedPerms p e == 0)).take 1 := by
  refine ⟨?_, ?_, nftwWalk_eq_firstBad p es, nftwVisited_eq p es⟩
  · constructor
    · intro h
      by_contra hc
      push_neg at hc
      have h0 : nftwWalk p es = 0 := (nftwWalk_eq_zero_iff p es).mpr hc
      simp [SetMetadataRecursive, h0] at h
    · intro ⟨e, he, hbad⟩
      have h0 : nftwWalk p es ≠ 0 := by
        intro h0
        exact hbad (((nftwWalk_eq_zero_iff p es).mp h0) e he)
      simp [SetMetadataRecursive, Nat.pos_of_ne_zero h0]
  · constructor
    · intro h
      by_contra hc
      push_neg at hc
      obtain ⟨e, he, hbad⟩ := hc
      have h0 : nftwWalk p es ≠ 0 := by
        intro h0
        exact hbad (((nftwWalk_eq_zero_iff p es).mp h0) e he)
      simp [SetMetadataRecursive, Nat.pos_of_ne_zero h0] at h
    · intro h
      have h0 : nftwWalk p es = 0 := (nftwWalk_eq_zero_iff p es).mpr h
      simp [SetMetadataRecursive, h0]

end Updater

namespace Updater

/-- A concrete boot-control record used to instantiate theorems. -/
def sampleRecord : BootloaderMessage :=
  { command := "boot-recovery".toList, status := [],
    recovery := "recovery".toList, stage := "1/3".toList, reserved := [] }

/-- C2 counterexample: when the boot-control record cannot be read,
reboot_now returns the soft falsy empty string to the script instead
of ending in a named hard abort (and likewise no abort kind is ever
produced on this path). -/
theorem reboot_now_read_failure_counterexample :
    (RebootNowFn { readOk := false, record := sampleRecord }).1
      = RebootOutcome.returned (OpResult.ok (Val.str ""))
    ∧ ∀ k, RebootOutcome.returned (OpResult.ok (Val.str ""))
        ≠ RebootOutcome.returned (OpResult.abort k) := by
  refine ⟨by decide, ?_⟩
  intro k h
  injection h with h2
  exact OpResult.noConfusion h2

/-- C2 (amended): a failure to read the boot-control record, or to
write it back, makes reboot_now return the soft falsy empty string;
only when the record I/O succeeds and the reboot request returns
control does the call end in the named kRebootFailure hard abort; a
reboot that takes effect never returns. -/
theorem reboot_now_failure_modes (env : BootEnv) :
    ((env.readOk = false ∨ env.writeOk = false) →
        (RebootNowFn env).1 = RebootOutcome.returned (OpResult.ok (Val.str "")))
    ∧ (env.readOk = true → env.writeOk = true → env.rebootTakesEffect = false →
        (RebootNowFn env).1
          = RebootOutcome.returned (OpResult.abort ErrorKind.kRebootFailure))
    ∧ (env.readOk = true → env.writeOk = true → env.rebootTakesEffect = true →
        (RebootNowFn env).1 = RebootOutcome.rebooted) := by
  obtain ⟨r, w, rec, q, t⟩ := env
  refine ⟨?_, ?_, ?_⟩ <;> cases r <;> cases w <;> cases t <;> simp [RebootNowFn]

/-- Witness for the amended C2 theorem at a concrete environment in
which record I/O succeeds but the reboot request returns control. -/
theorem reboot_now_failure_modes_witness :
    (RebootNowFn { record := sampleRecord, rebootTakesEffect := false }).1
      = RebootOutcome.returned (OpResult.abort ErrorKind.kRebootFailure) :=
  (reboot_now_failure_modes
    { record := sampleRecord, rebootTakesEffect := false }).2.1 rfl rfl rfl

end Updater

namespace Updater

/-- C3: the record set_stage writes back differs from the record it
read only in the stage field, and the record reboot_now writes back
differs only in the (cleared) command field; the records actually
stored by successful SetStageFn and RebootNowFn runs are exactly
these. -/
theorem stage_and_command_frame (f : String) (b : BootloaderMessage)
    (tok : List Char) (t : Bool) :
    (setStageWritten b tok).command = b.command
    ∧ (setStageWritten b tok).status = b.status
    ∧ (setStageWritten b tok).recovery = b.recovery
    ∧ (setStageWritten b tok).reserved = b.reserved
    ∧ (setStageWritten b tok).stage = strlcpyStage tok
    ∧ (rebootWritten b).stage = b.stage
    ∧ (rebootWritten b).status = b.status
    ∧ (rebootWritten b).recovery = b.recovery
    ∧ (rebootWritten b).reserved = b.reserved
    ∧ (rebootWritten b).command = []
    ∧ (SetStageFn f tok { record := b }).2 = setStageWritten b tok
    ∧ (RebootNowFn { record := b, rebootTakesEffect := t }).2 = rebootWritten b := by
  refine ⟨rfl, rfl, rfl, rfl, rfl, rfl, rfl, rfl, rfl, rfl, ?_, ?_⟩
  · simp [SetStageFn]
  · cases t <;> simp [RebootNowFn]

/-- C4: with successful record I/O, set_stage never rejects a token —
it returns the record path and stores the token truncated to the
31-byte stage capacity — and get_stage then returns exactly the
token when it fits, and its 31-byte truncation (a strictly shorter
string) when it is longer. -/
theorem set_stage_get_stage_round_trip (f : String) (b : BootloaderMessage)
    (tok : List Char) :
    (SetStageFn f tok { record := b }).1 = OpResult.ok (Val.str f)
    ∧ GetStageFn { record := (SetStageFn f tok { record := b }).2 }
        = OpResult.ok (Val.str (String.mk (tok.take stageCapacity)))
    ∧ (tok.length ≤ stageCapacity → tok.take stageCapacity = tok)
    ∧ (stageCapacity < tok.length →
        (tok.take stageCapacity).length = stageCapacity
          ∧ tok.take stageCapacity ≠ tok) := by
  refine ⟨by simp [SetStageFn], ?_, ?_, ?_⟩
  · simp [SetStageFn, GetStageFn, setStageWritten, strlcpyStage]
  · intro h
    exact List.take_of_length_le h
  · intro h
    have hlen : (tok.take stageCapacity).length = stageCapacity := by
      simp [List.length_take]
      omega
    refine ⟨hlen, ?_⟩
    intro heq
    rw [heq] at hlen
    omega

/-- Witness for the C4 round-trip theorem: the 2-byte token "S2" is
returned verbatim, and a 36-byte token is stored and returned as its
31-byte truncation. -/
theorem set_stage_get_stage_round_trip_witness :
    ("S2".toList).take stageCapacity = "S2".toList
    ∧ GetStageFn
        { record := (SetStageFn "/misc" "S2".toList { record := sampleRecord }).2 }
        = OpResult.ok (Val.str (String.mk (("S2".toList).take stageCapacity)))
    ∧ (("abcdefghijklmnopqrstuvwxyz0123456789".toList).take stageCapacity).length
        = stageCapacity :=
  ⟨(set_stage_get_stage_round_trip "/misc" sampleRecord "S2".toList).2.2.1 (by decide),
   (set_stage_get_stage_round_trip "/misc" sampleRecord "S2".toList).2.1,
   ((set_stage_get_stage_round_trip "/misc" sampleRecord
      "abcdefghijklmnopqrstuvwxyz0123456789".toList).2.2.2 (by decide)).1⟩

end Updater

namespace Updater

/-- C5 counterexample: format("f2fs", "EMMC", device, "100", "/data")
with the positive parsed size 100. The claim says a positive size
yields a sector count of size/512; the invocation actually passes no
sector-count argument at all for a positive size below 512 (the tool
is left to use the whole partition). -/
theorem format_f2fs_small_positive_size_counterexample :
    (FormatFn "f2fs" "EMMC" "/dev/block/by-name/userdata" "100" "/data"
        (some 100) {}).2
      = [mkfsF2fsArgv "/dev/block/by-name/userdata" 100,
         sloadArgv "/data" "/dev/block/by-name/userdata"]
    ∧ mkfsF2fsArgv "/dev/block/by-name/userdata" 100
        = ["mkfs.f2fs", "-d1", "-f", "-O", "encrypt", "-O", "quota", "-O", "verity",
           "-w", "512", "/dev/block/by-name/userdata"]
    ∧ toString (Int.tdiv 100 512) ∉ mkfsF2fsArgv "/dev/block/by-name/userdata" 100 := by
  decide

/-- C5 (amended): size semantics as implemented: size 0 omits the
count argument in both branches (whole partition); a nonzero size
passes block count size/4096 (truncated toward zero) to mke2fs, a
negative size included; for f2fs a sector count of size/512 is
passed only when size is at least 512, a smaller nonnegative size
passing no count; a negative size is rejected for f2fs with an empty
result and no invocation; any other nonempty fs_type produces the
null result and no invocation; with cleanly exiting tools each
supported branch runs its maker and then its metadata seeder and
returns the device location. -/
theorem format_size_semantics (pt loc fsz mp : String) (size : Int) (env : ExecEnv)
    (hpt : pt ≠ "") (hloc : loc ≠ "") (hmp : mp ≠ "") :
    (size = 0 →
        mke2fsArgv loc size = ["/sbin/mke2fs_static", "-t", "ext4", "-b", "4096", loc]
        ∧ mkfsF2fsArgv loc size
            = ["mkfs.f2fs", "-d1", "-f", "-O", "encrypt", "-O", "quota", "-O", "verity",
               "-w", "512", loc])
    ∧ (size ≠ 0 → mke2fsArgv loc size
        = ["/sbin/mke2fs_static", "-t", "ext4", "-b", "4096", loc,
           toString (Int.tdiv size 4096)])
    ∧ (512 ≤ size → mkfsF2fsArgv loc size
        = ["mkfs.f2fs", "-d1", "-f", "-O", "encrypt", "-O", "quota", "-O", "verity",
           "-w", "512", loc, toString (Int.tdiv size 512)])
    ∧ (0 ≤ size → size < 512 → mkfsF2fsArgv loc size
        = ["mkfs.f2fs", "-d1", "-f", "-O", "encrypt", "-O", "quota", "-O", "verity",
           "-w", "512", loc])
    ∧ (size < 0 →
        FormatFn "f2fs" pt loc fsz mp (some size) env = (OpResult.ok (Val.str ""), []))
    ∧ (∀ ft, ft ≠ "" → ft ≠ "ext4" → ft ≠ "f2fs" →
        FormatFn ft pt loc fsz mp (some size) env = (OpResult.null, []))
    ∧ (env.mke2fsStatus = 0 → env.e2fsdroidStatus = 0 →
        FormatFn "ext4" pt loc fsz mp (some size) env
          = (OpResult.ok (Val.str loc), [mke2fsArgv loc size, e2fsdroidArgv mp loc]))
    ∧ (0 ≤ size → env.mkfsF2fsStatus = 0 → env.sloadStatus = 0 →
        FormatFn "f2fs" pt loc fsz mp (some size) env
          = (OpResult.ok (Val.str loc), [mkfsF2fsArgv loc size, sloadArgv mp loc])) := by
  refine ⟨?_, ?_, ?_, ?_, ?_, ?_, ?_, ?_⟩
  · intro h
    subst h
    constructor <;> simp [mke2fsArgv, mkfsF2fsArgv]
  · intro h
    simp [mke2fsArgv, h]
  · intro h
    have h2 : ¬ size < 512 := by omega
    simp [mkfsF2fsArgv, h2]
  · intro h1 h2
    simp [mkfsF2fsArgv, h2]
  · intro h
    have hne : ¬ size < 0 → False := fun hc => hc h
    simp [FormatFn, hpt, hloc, hmp, h]
  · intro ft h0 h1 h2
    simp [FormatFn, hpt, hloc, hmp, h0, h1, h2]
  · intro h1 h2
    simp [FormatFn, hpt, hloc, hmp, h1, h2]
  · intro h0 h1 h2
    have hn : ¬ size < 0 := by omega
    simp [FormatFn, hpt, hloc, hmp, hn, h1, h2]

/-- Witness for the amended C5 theorem at concrete sizes: ext4 at
size 8192 gets block count "2", f2fs at size 1024 gets sector count
"2", f2fs at size -1 is rejected with no invocation. -/
theorem format_size_semantics_witness :
    mke2fsArgv "/dev/sda" 8192
      = ["/sbin/mke2fs_static", "-t", "ext4", "-b", "4096", "/dev/sda",
         toString (Int.tdiv 8192 4096)]
    ∧ mkfsF2fsArgv "/dev/sda" 1024
      = ["mkfs.f2fs", "-d1", "-f", "-O", "encrypt", "-O", "quota", "-O", "verity",
         "-w", "512", "/dev/sda", toString (Int.tdiv 1024 512)]
    ∧ FormatFn "f2fs" "EMMC" "/dev/sda" "-1" "/data" (some (-1)) {}
      = (OpResult.ok (Val.str ""), [])
    ∧ FormatFn "vfat" "EMMC" "/dev/sda" "0" "/data" (some 0) {}
      = (OpResult.null, []) :=
  ⟨(format_size_semantics "EMMC" "/dev/sda" "8192" "/data" 8192 {}
      (by decide) (by decide) (by decide)).2.1 (by decide),
   (format_size_semantics "EMMC" "/dev/sda" "1024" "/data" 1024 {}
      (by decide) (by decide) (by decide)).2.2.1 (by decide),
   (format_size_semantics "EMMC" "/dev/sda" "-1" "/data" (-1) {}
      (by decide) (by decide) (by decide)).2.2.2.2.1 (by decide),
   (format_size_semantics "EMMC" "/dev/sda" "0" "/data" 0 {}
      (by decide) (by decide) (by decide)).2.2.2.2.2.1 "vfat"
      (by decide) (by decide) (by decide)⟩

end Updater

namespace Updater

/-- The argument list of the C6 counterexample: the four fixed string
arguments and one checksum/blob pair (six arguments, an even count),
with a target-size field that does not parse as a byte count. -/
def applyPatchArgsC6 : List Val :=
  [Val.str "/system/app/A.apk", Val.str "-",
   Val.str "0123456789abcdef0123456789abcdef01234567", Val.str "notasize",
   Val.str "89abcdef0123456789abcdef0123456789abcdef", Val.blob "patchdata"]

/-- C6 counterexample: an argument list that passes the count gate
(six arguments, even) but whose size field fails the unsigned parse:
the call still aborts with the argument-parsing kind and never
invokes the patch collaborator, refuting the claimed equivalence of
the abort with a bad argument count alone. -/
theorem apply_patch_arity_counterexample :
    ¬ (applyPatchArgsC6.length < 6 ∨ applyPatchArgsC6.length % 2 = 1)
    ∧ ApplyPatchFn applyPatchArgsC6 none true
        = (OpResult.abort ErrorKind.kArgsParsingFailure, false) := by
  decide

/-- C6 (amended): apply_patch aborts with an argument-parsing error
and skips the patch collaborator exactly when the argument count is
below six or odd, or one of the first four arguments does not read as
a string, or the size field fails the unsigned parse, or some
checksum/blob pair is mistyped; in every other case the collaborator
is invoked and the call returns "t" exactly when it reports success
and "" otherwise. -/
theorem apply_patch_parse_gate (args : List Val) (ps : Option Nat) (good : Bool) :
    ((ApplyPatchFn args ps good).2 = false ↔
      args.length < 6 ∨ args.length % 2 = 1 ∨ (args.take 4).all Val.isStr = false
        ∨ ps = none ∨ pairsTyped (args.drop 4) = false)
    ∧ ((ApplyPatchFn args ps good).2 = false →
        (ApplyPatchFn args ps good).1 = OpResult.abort ErrorKind.kArgsParsingFailure)
    ∧ ((ApplyPatchFn args ps good).2 = true →
        (ApplyPatchFn args ps good).1
          = OpResult.ok (Val.str (if good then "t" else ""))) := by
  cases ps with
  | none =>
    by_cases h : args.length < 6 ∨ args.length % 2 = 1
    · simp [ApplyPatchFn, h]
    · by_cases h4 : (args.take 4).all Val.isStr
      · simp [ApplyPatchFn, h, h4]
      · simp [ApplyPatchFn, h, h4]
  | some n =>
    by_cases h : args.length < 6 ∨ args.length % 2 = 1
    · simp [ApplyPatchFn, h]
      tauto
    · by_cases h4 : (args.take 4).all Val.isStr
      · by_cases hp : pairsTyped (args.drop 4)
        · simp [ApplyPatchFn, h, h4, hp]
        · simp [ApplyPatchFn, h, h4, hp]
      · simp [ApplyPatchFn, h, h4]

/-- Witness for the amended C6 theorem: a well-formed six-argument
list with a parsed size invokes the collaborator and returns "t" on
its success. -/
theorem apply_patch_parse_gate_witness :
    (ApplyPatchFn
        [Val.str "/system/app/A.apk", Val.str "-",
         Val.str "0123456789abcdef0123456789abcdef01234567", Val.str "1048576",
         Val.str "89abcdef0123456789abcdef0123456789abcdef", Val.blob "patchdata"]
        (some 1048576) true).1
      = OpResult.ok (Val.str (if true then "t" else "")) :=
  (apply_patch_parse_gate
      [Val.str "/system/app/A.apk", Val.str "-",
       Val.str "0123456789abcdef0123456789abcdef01234567", Val.str "1048576",
       Val.str "89abcdef0123456789abcdef0123456789abcdef", Val.blob "patchdata"]
      (some 1048576) true).2.2 (by decide)

end Updater

namespace Updater

/-- C7 counterexample: a successful mount returns the mount-point
string "/system" to the script, which is none of the four claimed
return forms ("t", "", a blob, an abort). -/
theorem mount_returns_mount_point_counterexample :
    MountFn ["ext4", "EMMC", "/dev/block/by-name/system", "/system"] {}
      = OpResult.ok (Val.str "/system")
    ∧ specClaimedReturnForm (OpResult.ok (Val.str "/system")) = false := by
  decide

end Updater

namespace Updater

/-- C8: the one-argument form of package_extract_file hard-aborts
exactly when the entry is missing or extraction to memory fails, and
returns the contents blob otherwise; the two-argument form only ever
returns "t" or the soft falsy "", with "t" exactly when the entry is
found, the destination opens, and extraction, fsync and close all
succeed. -/
theorem package_extract_file_error_modes (env : PkgEnv) :
    (PackageExtractFile1 env = OpResult.abort ErrorKind.kPackageExtractFileFailure
        ↔ env.findOk = false ∨ env.extractToMemoryOk = false)
    ∧ (env.findOk = true → env.extractToMemoryOk = true →
        PackageExtractFile1 env = OpResult.ok (Val.blob env.entryContents))
    ∧ (PackageExtractFile2 env = OpResult.ok (Val.str "t")
        ↔ env.findOk = true ∧ env.openOk = true ∧ env.extractToFileOk = true
          ∧ env.fsyncOk = true ∧ env.closeOk = true)
    ∧ (PackageExtractFile2 env = OpResult.ok (Val.str "t")
        ∨ PackageExtractFile2 env = OpResult.ok (Val.str "")) := by
  obtain ⟨f, o, ef, fs, c, em, data⟩ := env
  cases f <;> cases o <;> cases ef <;> cases fs <;> cases c <;> cases em <;>
    simp [PackageExtractFile1, PackageExtractFile2]

/-- Witness for the C8 theorem: with every collaborator call
succeeding, the one-argument form returns the entry blob. -/
theorem package_extract_file_error_modes_witness :
    PackageExtractFile1 { entryContents := "payload" }
      = OpResult.ok (Val.blob "payload") :=
  (package_extract_file_error_modes { entryContents := "payload" }).2.1 rfl rfl

/-- C9: a set_metadata or set_metadata_recursive call whose failure
count is zero returns the falsy empty string — the same value other
operations use for soft failure — and not the truthy "t". -/
theorem set_metadata_success_returns_empty (p : PermParsedArgs) (e : FileEnv)
    (tree : List FileEnv) (h1 : ApplyParsedPerms p e = 0)
    (h2 : nftwWalk p tree = 0) :
    SetMetadataSingle p e = OpResult.ok (Val.str "")
    ∧ SetMetadataRecursive p tree = OpResult.ok (Val.str "")
    ∧ Val.str "" ≠ Val.str "t" := by
  refine ⟨?_, ?_, by decide⟩
  · simp [SetMetadataSingle, h1]
  · simp [SetMetadataRecursive, h2]

/-- Witness for the C9 theorem at a concrete all-attributes-absent
spec and a one-entry tree, where no application can fail. -/
theorem set_metadata_success_returns_empty_witness :
    SetMetadataSingle {} { kind := FileKind.reg } = OpResult.ok (Val.str "")
    ∧ SetMetadataRecursive {} [{ kind := FileKind.dir }, { kind := FileKind.reg }]
        = OpResult.ok (Val.str "")
    ∧ Val.str "" ≠ Val.str "t" :=
  set_metadata_success_returns_empty {} { kind := FileKind.reg }
    [{ kind := FileKind.dir }, { kind := FileKind.reg }] (by decide) (by decide)

/-- C10: for a non-empty mount point present in the rescanned mount
table, unmount returns the mount-point string even when the
underlying unmount fails — the failure surfacing only as a printed
diagnostic — and the null result occurs exactly when the point is
not in the table. -/
theorem unmount_found_returns_mount_point (mp : String) (env : UnmountEnv)
    (h : mp ≠ "") :
    (env.volFound = true → (UnmountFn [mp] env).1 = OpResult.ok (Val.str mp))
    ∧ (env.volFound = true → env.unmountOk = false →
        (UnmountFn [mp] env).1 = OpResult.ok (Val.str mp)
          ∧ (UnmountFn [mp] env).2 = ["Failed to unmount " ++ mp])
    ∧ ((UnmountFn [mp] env).1 = OpResult.null ↔ env.volFound = false) := by
  obtain ⟨vf, uo⟩ := env
  cases vf <;> cases uo <;> simp [UnmountFn, h]

/-- Witness for the C10 theorem: the volume is found but its unmount
fails; the mount point is still returned and the failure appears
only in the diagnostic stream. -/
theorem unmount_found_returns_mount_point_witness :
    (UnmountFn ["/system"] { unmountOk := false }).1 = OpResult.ok (Val.str "/system")
    ∧ (UnmountFn ["/system"] { unmountOk := false }).2
        = ["Failed to unmount " ++ "/system"] :=
  (unmount_found_returns_mount_point "/system" { unmountOk := false }
    (by decide)).2.1 rfl rfl

end Updater

namespace Updater

/-- Witness for the amended C1 theorem at the concrete two-entry
tree: the walk value equals the first failing entry's own count. -/
theorem set_metadata_recursive_stops_at_first_failure_witness :
    nftwWalk permC1 [entryC1, entryC1] = firstBad permC1 [entryC1, entryC1]
    ∧ SetMetadataRecursive permC1 [entryC1, entryC1]
        = OpResult.abort ErrorKind.kSetMetadataFailure :=
  ⟨(set_metadata_recursive_stops_at_first_failure permC1 [entryC1, entryC1]).2.2.1,
   (set_metadata_recursive_stops_at_first_failure permC1 [entryC1, entryC1]).1.mpr
     ⟨entryC1, by decide, by decide⟩⟩

/-- Witness for the C3 frame theorem at a concrete record and
token. -/
theorem stage_and_command_frame_witness :
    (setStageWritten sampleRecord "S2".toList).command = sampleRecord.command
    ∧ (rebootWritten sampleRecord).stage = sampleRecord.stage :=
  ⟨(stage_and_command_frame "/misc" sampleRecord "S2".toList true).1,
   (stage_and_command_frame "/misc" sampleRecord "S2".toList true).2.2.2.2.2.1⟩

end Updater

namespace Updater

/-- Membership in the string contents of a list of values is stable
under consing another value in front. -/
theorem valStrings_mem_cons (v : Val) (l : List Val) (s : String)
    (h : s ∈ valStrings l) : s ∈ valStrings (v :: l) := by
  cases v <;> simp [valStrings, List.filterMap_cons] at h ⊢ <;> tauto

/-- The checksum argument the sha1_check loop returns is one of the
string-typed arguments it was given. -/
theorem sha1FirstMatch_mem (f : String → Bool) :
    ∀ (l : List Val) (s : String), sha1FirstMatch f l = some s → s ∈ valStrings l := by
  intro l
  induction l with
  | nil => intro s h; simp [sha1FirstMatch] at h
  | cons v rest ih =>
    intro s h
    cases v with
    | str t =>
      by_cases hf : f t
      · simp [sha1FirstMatch, hf] at h
        subst h
        simp [valStrings]
      · simp [sha1FirstMatch, hf] at h
        exact valStrings_mem_cons _ _ _ (ih s h)
    | blob d =>
      simp [sha1FirstMatch] at h
      exact valStrings_mem_cons _ _ _ (ih s h)
    | invalid =>
      simp [sha1FirstMatch] at h
      exact valStrings_mem_cons _ _ _ (ih s h)

/-- A result whose string content lies in the allowed list falls
under the five-form enumeration of the amended return-form claim. -/
theorem stringFormOk_cases (allowed : List String) (r : OpResult)
    (h : stringFormOk allowed r = true) :
    (∃ s, r = OpResult.ok (Val.str s) ∧ (s = "t" ∨ s = "" ∨ s ∈ allowed))
    ∨ (∃ d, r = OpResult.ok (Val.blob d))
    ∨ r = OpResult.ok Val.invalid
    ∨ r = OpResult.null
    ∨ (∃ k, r = OpResult.abort k) := by
  cases r with
  | ok v =>
    cases v with
    | str s =>
      left
      refine ⟨s, rfl, ?_⟩
      simp [stringFormOk, List.elem_iff] at h
      tauto
    | blob d => exact Or.inr (Or.inl ⟨d, rfl⟩)
    | invalid => exact Or.inr (Or.inr (Or.inl rfl))
  | null => exact Or.inr (Or.inr (Or.inr (Or.inl rfl)))
  | abort k => exact Or.inr (Or.inr (Or.inr (Or.inr ⟨k, rfl⟩)))

/-- A reboot_now invocation that returns control hands back either
the soft empty string (record I/O failure) or the reboot-failure
abort. -/
theorem rebootNowFn_returned (env : BootEnv) (r : OpResult)
    (h : (RebootNowFn env).1 = RebootOutcome.returned r) :
    r = OpResult.ok (Val.str "") ∨ r = OpResult.abort ErrorKind.kRebootFailure := by
  unfold RebootNowFn at h
  split_ifs at h <;> simp_all

set_option maxHeartbeats 2000000 in
/-- C7 (amended): for every registered operation (each registry name
of RegisterInstallFunctions is covered by an invocation) and every
invocation that returns control, the value returned to the script is
one of: a string that is the truthy marker "t", the falsy empty
string "", or a truthy string drawn from the operation's own subject
or computed output (mount point, device location, fraction,
destination path, property or file value, deletion count, sha-1 hex,
child status, stage token, record path, printed text); a data blob;
the invalid value (read_file on a failed load); a bare null result;
or an abort carrying a named error kind. -/
theorem operation_return_values :
    (∀ inv : Invocation, ∀ r : OpResult, runOp inv = some r →
        (∃ s, r = OpResult.ok (Val.str s) ∧ (s = "t" ∨ s = "" ∨ s ∈ allowedStrings inv))
        ∨ (∃ d, r = OpResult.ok (Val.blob d))
        ∨ r = OpResult.ok Val.invalid
        ∨ r = OpResult.null
        ∨ (∃ k, r = OpResult.abort k))
    ∧ (∀ n ∈ registryNames, ∃ inv : Invocation, registeredName inv = n) := by
  constructor
  · intro inv r h
    refine stringFormOk_cases (allowedStrings inv) r ?_
    cases inv with
    | mount args rok env =>
      simp only [runOp] at h
      obtain rfl := Option.some.inj h
      unfold MountFn
      repeat' split
      all_goals simp [stringFormOk, allowedStrings]
    | is_mounted args rok found =>
      simp only [runOp] at h
      obtain rfl := Option.some.inj h
      unfold IsMountedFn
      repeat' split
      all_goals simp [stringFormOk, allowedStrings]
    | unmount args rok env =>
      simp only [runOp] at h
      obtain rfl := Option.some.inj h
      unfold UnmountFn
      repeat' split
      all_goals simp [stringFormOk, allowedStrings]
    | format args rok ps env =>
      rcases args with _ | ⟨a, _ | ⟨b, _ | ⟨c, _ | ⟨d, _ | ⟨e, _ | ⟨f, fs⟩⟩⟩⟩⟩⟩ <;>
          simp only [runOp] at h <;> obtain rfl := Option.some.inj h
      all_goals try unfold FormatFn
      all_goals repeat' split
      all_goals try simp [stringFormOk, allowedStrings]
    | show_progress args rok fp sp =>
      simp only [runOp] at h
      obtain rfl := Option.some.inj h
      unfold ShowProgressFn
      repeat' split
      all_goals simp [stringFormOk, allowedStrings]
    | set_progress args rok fp =>
      simp only [runOp] at h
      obtain rfl := Option.some.inj h
      unfold SetProgressFn
      repeat' split
      all_goals simp [stringFormOk, allowedStrings]
    | delete recursive paths rok removeOk =>
      simp only [runOp] at h
      obtain rfl := Option.some.inj h
      unfold DeleteFn
      repeat' split
      all_goals simp [stringFormOk, allowedStrings]
    | package_extract_dir args rok xok =>
      simp only [runOp] at h
      obtain rfl := Option.some.inj h
      unfold PackageExtractDirFn
      repeat' split
      all_goals simp [stringFormOk, allowedStrings]
    | package_extract_file args rok env =>
      simp only [runOp] at h
      obtain rfl := Option.some.inj h
      unfold PackageExtractFileFn PackageExtractFile1 PackageExtractFile2
      repeat' split
      all_goals simp [stringFormOk, allowedStrings]
    | symlink args evok rok bad =>
      simp only [runOp] at h
      obtain rfl := Option.some.inj h
      unfold SymlinkFn
      repeat' split
      all_goals simp [stringFormOk, allowedStrings]
    | set_metadata recursive args rok lok p target tree =>
      simp only [runOp] at h
      obtain rfl := Option.some.inj h
      unfold SetMetadataFn SetMetadataRecursive SetMetadataSingle
      repeat' split
      all_goals try simp [stringFormOk, allowedStrings]
      all_goals split_ifs <;> simp [stringFormOk]
    | getprop args evok value =>
      simp only [runOp] at h
      obtain rfl := Option.some.inj h
      unfold GetPropFn
      repeat' split
      all_goals simp [stringFormOk, allowedStrings]
    | file_getprop args rok st sz op fr found =>
      simp only [runOp] at h
      obtain rfl := Option.some.inj h
      unfold FileGetPropFn
      repeat' split
      all_goals simp [stringFormOk, allowedStrings]
    | apply_patch args rok ps rvok pok =>
      simp only [runOp] at h
      obtain rfl := Option.some.inj h
      unfold ApplyPatchFn
      repeat' split
      all_goals simp [stringFormOk, allowedStrings]
    | apply_patch_check args rok cok =>
      simp only [runOp] at h
      obtain rfl := Option.some.inj h
      unfold ApplyPatchCheckFn
      repeat' split
      all_goals simp [stringFormOk, allowedStrings]
    | apply_patch_space args rok bp retry cok =>
      simp only [runOp] at h
      obtain rfl := Option.some.inj h
      unfold ApplyPatchSpaceFn
      repeat' split
      all_goals simp [stringFormOk, allowedStrings]
    | wipe_block_device args rok lp wok =>
      simp only [runOp] at h
      obtain rfl := Option.some.inj h
      unfold WipeBlockDeviceFn
      repeat' split
      all_goals simp [stringFormOk, allowedStrings]
    | read_file args rok lok contents =>
      simp only [runOp] at h
      obtain rfl := Option.some.inj h
      unfold ReadFileFn
      repeat' split
      all_goals simp [stringFormOk, allowedStrings]
    | sha1_check args rvok hex f =>
      simp only [runOp] at h
      obtain rfl := Option.some.inj h
      simp only [allowedStrings]
      rcases args with _ | ⟨v0, rest⟩
      · simp [Sha1CheckFn, stringFormOk]
      · simp only [Sha1CheckFn]
        split
        · simp [stringFormOk]
        · split
          · simp [stringFormOk]
          · split
            · simp [stringFormOk]
            · split
              · rename_i s hs
                have hmem : s ∈ valStrings (v0 :: rest) :=
                  valStrings_mem_cons v0 rest s (sha1FirstMatch_mem f rest s hs)
                simp [stringFormOk, List.elem_iff, hmem]
              · simp [stringFormOk]
    | rename args rok mpok de se renok =>
      simp only [runOp] at h
      obtain rfl := Option.some.inj h
      unfold RenameFn
      repeat' split
      all_goals simp [stringFormOk, allowedStrings]
    | write_value args rok wok =>
      simp only [runOp] at h
      obtain rfl := Option.some.inj h
      unfold WriteValueFn
      repeat' split
      all_goals simp [stringFormOk, allowedStrings]
    | wipe_cache args =>
      simp only [runOp] at h
      obtain rfl := Option.some.inj h
      unfold WipeCacheFn
      repeat' split
      all_goals simp [stringFormOk, allowedStrings]
    | ui_print args rok =>
      simp only [runOp] at h
      obtain rfl := Option.some.inj h
      unfold UIPrintFn
      repeat' split
      all_goals simp [stringFormOk, allowedStrings]
    | run_program args rok status =>
      simp only [runOp] at h
      obtain rfl := Option.some.inj h
      unfold RunProgramFn
      repeat' split
      all_goals simp [stringFormOk, allowedStrings]
    | reboot_now args rok env =>
      rcases args with _ | ⟨a, _ | ⟨b, _ | ⟨c, cs⟩⟩⟩ <;> simp only [runOp] at h
      · obtain rfl := Option.some.inj h; rfl
      · obtain rfl := Option.some.inj h; rfl
      · split at h
        · obtain rfl := Option.some.inj h; rfl
        · split at h
          · exact Option.noConfusion h
          · obtain rfl := Option.some.inj h
            rename_i r2 heq
            rcases rebootNowFn_returned env r2 heq with rfl | rfl <;> rfl
      · obtain rfl := Option.some.inj h; rfl
    | get_stage args rok env =>
      rcases args with _ | ⟨a, _ | ⟨b, bs⟩⟩ <;>
          simp only [runOp] at h <;> obtain rfl := Option.some.inj h
      all_goals try unfold GetStageFn
      all_goals repeat' split
      all_goals simp [stringFormOk, allowedStrings]
    | set_stage args rok env =>
      rcases args with _ | ⟨a, _ | ⟨b, _ | ⟨c, cs⟩⟩⟩ <;>
          simp only [runOp] at h <;> obtain rfl := Option.some.inj h
      all_goals try unfold SetStageFn
      all_goals repeat' split
      all_goals simp [stringFormOk, allowedStrings]
    | enable_reboot args =>
      simp only [runOp] at h
      obtain rfl := Option.some.inj h
      unfold EnableRebootFn
      repeat' split
      all_goals simp [stringFormOk, allowedStrings]
    | tune2fs args hl rok res =>
      simp only [runOp] at h
      obtain rfl := Option.some.inj h
      unfold Tune2FsFn
      repeat' split
      all_goals simp [stringFormOk, allowedStrings]
  · intro n hn
    simp only [registryNames, List.mem_cons, List.not_mem_nil, or_false] at hn
    rcases hn with rfl | rfl | rfl | rfl | rfl | rfl | rfl | rfl | rfl | rfl | rfl | rfl |
      rfl | rfl | rfl | rfl | rfl | rfl | rfl | rfl | rfl | rfl | rfl | rfl | rfl | rfl |
      rfl | rfl | rfl | rfl | rfl
    · exact ⟨Invocation.mount [] true {}, rfl⟩
    · exact ⟨Invocation.is_mounted [] true true, rfl⟩
    · exact ⟨Invocation.unmount [] true {}, rfl⟩
    · exact ⟨Invocation.format [] true none {}, rfl⟩
    · exact ⟨Invocation.show_progress [] true true true, rfl⟩
    · exact ⟨Invocation.set_progress [] true true, rfl⟩
    · exact ⟨Invocation.delete false [] true (fun _ => true), rfl⟩
    · exact ⟨Invocation.delete true [] true (fun _ => true), rfl⟩
    · exact ⟨Invocation.package_extract_dir [] true true, rfl⟩
    · exact ⟨Invocation.package_extract_file [] true {}, rfl⟩
    · exact ⟨Invocation.symlink [] true true 0, rfl⟩
    · exact ⟨Invocation.set_metadata false [] true true {} { kind := FileKind.reg } [], rfl⟩
    · exact ⟨Invocation.set_metadata true [] true true {} { kind := FileKind.reg } [], rfl⟩
    · exact ⟨Invocation.getprop [] true "", rfl⟩
    · exact ⟨Invocation.file_getprop [] true true true true true none, rfl⟩
    · exact ⟨Invocation.apply_patch [] true none true true, rfl⟩
    · exact ⟨Invocation.apply_patch_check [] true true, rfl⟩
    · exact ⟨Invocation.apply_patch_space [] true true true true, rfl⟩
    · exact ⟨Invocation.wipe_block_device [] true true true, rfl⟩
    · exact ⟨Invocation.read_file [] true true "", rfl⟩
    · exact ⟨Invocation.sha1_check [] true "" (fun _ => false), rfl⟩
    · exact ⟨Invocation.rename [] true true true true true, rfl⟩
    · exact ⟨Invocation.write_value [] true true, rfl⟩
    · exact ⟨Invocation.wipe_cache [], rfl⟩
    · exact ⟨Invocation.ui_print [] true, rfl⟩
    · exact ⟨Invocation.run_program [] true 0, rfl⟩
    · exact ⟨Invocation.reboot_now [] true { record := sampleRecord }, rfl⟩
    · exact ⟨Invocation.get_stage [] true { record := sampleRecord }, rfl⟩
    · exact ⟨Invocation.set_stage [] true { record := sampleRecord }, rfl⟩
    · exact ⟨Invocation.enable_reboot [], rfl⟩
    · exact ⟨Invocation.tune2fs [] true true 0, rfl⟩
/-- Witness for the amended C7 theorem: a successful mount invocation
returns the mount-point string, which the theorem places in that
operation's allowed set, and the registry covers read_file. -/
theorem operation_return_values_witness :
    ((∃ s, OpResult.ok (Val.str "/data") = OpResult.ok (Val.str s)
        ∧ (s = "t" ∨ s = "" ∨ s ∈ allowedStrings mountInvC7))
      ∨ (∃ d, OpResult.ok (Val.str "/data") = OpResult.ok (Val.blob d))
      ∨ OpResult.ok (Val.str "/data") = OpResult.ok Val.invalid
      ∨ OpResult.ok (Val.str "/data") = OpResult.null
      ∨ (∃ k, OpResult.ok (Val.str "/data") = OpResult.abort k))
    ∧ (∃ inv : Invocation, registeredName inv = "read_file") :=
  ⟨operation_return_values.1 mountInvC7 (OpResult.ok (Val.str "/data")) (by decide),
   operation_return_values.2 "read_file" (by decide)⟩

end Updater
